import Mathlib

/-!
Shallow embedding of the synthetic-AML-data-to-FHIR ETL pipeline.

Source files embedded here:
  * `patient.py`               — `create_patient_resource`
  * `condition.py`             — `create_aml_condition`, `create_cr1_condition`,
                                 `create_examl_condition`
  * `observation_outcome.py`   — `create_binary_event_observation`,
                                 `create_event_time_observation`
  * `observation_genetics.py`  — `create_karyotype_observation`,
                                 `create_genetic_observation`
  * `observation_lab.py`       — `create_observation_lab`
  * `etl.py`                   — `create_bundle` and the mapping-table dispatch

Modelling conventions:
  * Raw table cells are `PyVal` (Python int / float / str / NaN-missing), with
    Python `==` semantics (`NaN == x` is false, `"1" == 1` is false).
  * Exact rationals `ℚ` stand for the (finite, exactly representable) Python
    floats flowing through this program; no rounding occurs in the modelled code.
  * A Python function that can raise becomes `Except PyErr _`.
  * Only the resource fields the source assigns are modelled; a field the
    source never assigns after `construct()` is `Option _` holding `none`.
-/

namespace AmlFhir

/-- Python runtime errors raised by the embedded code. -/
inductive PyErr where
  | attributeError (msg : String)
  | typeError (msg : String)
  | keyError (key : String)
  | valueError (msg : String)
  | indexError (msg : String)
  | assertionError
deriving DecidableEq

/-- A raw cell of a pandas row: Python int, finite float (exact value), string,
or a missing value (numpy NaN, which pandas uses for absent data). -/
inductive PyVal where
  | int (n : ℤ)
  | float (q : ℚ)
  | str (s : String)
  | nan
deriving DecidableEq

/-- Python `cell == k` for an integer literal `k`: numeric equality across
int/float, `False` for strings, `False` for NaN. -/
def pyEqInt (v : PyVal) (k : ℤ) : Bool :=
  match v with
  | .int n => n = k
  | .float q => q = (k : ℚ)
  | .str _ => false
  | .nan => false

/-- Embeds `pd.isna(cell)`: true exactly for a missing (NaN) cell. -/
def pdIsna (v : PyVal) : Bool :=
  match v with
  | .nan => true
  | _ => false

/-- Python truthiness of a cell (`if value:`): 0 and 0.0 and the empty string
are falsy; NaN is truthy. -/
def pyTruthy (v : PyVal) : Bool :=
  match v with
  | .int n => !(n = 0 : Bool)
  | .float q => !(q = 0 : Bool)
  | .str s => !(s = "" : Bool)
  | .nan => true

/-- The string Python interpolates for a cell inside an f-string (`str(cell)`).
For the string cells actually used here it is the string itself; the other
renderings only need to stay distinct from `"m"` / `"f"` and the enum literals,
which digit/NaN renderings are. -/
def pyAsStr (v : PyVal) : String :=
  match v with
  | .str s => s
  | .int n => toString n
  | .float q => toString q
  | .nan => "nan"

/-- FHIR `Coding`: every `Coding.construct` in the source sets `system` and
`code`; `display` is optional (an interpretation coding may omit it). -/
structure Coding where
  system : String
  code : String
  display : Option String
deriving DecidableEq

/-- FHIR `CodeableConcept` as constructed by the source: optional coding list
and optional text. -/
structure CodeableConcept where
  coding : Option (List Coding)
  text : Option String
deriving DecidableEq

/-- FHIR `Annotation` (named `Annot` here): only its `text` field is used. -/
structure Annot where
  text : String
deriving DecidableEq

/-- FHIR `Reference`: only its `reference` string is used. -/
structure Reference where
  reference : String
deriving DecidableEq

/-- FHIR `Quantity` as the source fills it: value, unit, system, code. -/
structure Quantity where
  value : ℚ
  unit : String
  system : String
  code : String
deriving DecidableEq

/-- The narrative `text` block (`status` and `div`) the source attaches. -/
structure Narrative where
  status : String
  div : String
deriving DecidableEq

/-- A calendar date as `fhirtypes.Date(year, month, day)` receives it. -/
structure DateT where
  year : ℤ
  month : ℕ
  day : ℕ
deriving DecidableEq

/-- Embeds the constructor `fhirtypes.Date(year, month, day)`:
`fhir.resources.fhirtypes.Date` subclasses `datetime.date`, whose constructor
raises `ValueError` for a year outside MINYEAR..MAXYEAR = 1..9999 (and for an
out-of-range month or day; the one call site in patient.py passes the fixed
in-range pair month = day = 1, for which the simple day bound below agrees
with the calendar). -/
def DateT.construct (year : ℤ) (month day : ℕ) : Except PyErr DateT :=
  if year < 1 ∨ 9999 < year then
    .error (.valueError ("year " ++ toString year ++ " is out of range"))
  else if month < 1 ∨ 12 < month then
    .error (.valueError "month must be in 1..12")
  else if day < 1 ∨ 31 < day then
    .error (.valueError "day is out of range for month")
  else
    .ok { year := year, month := month, day := day }

/-- FHIR `Patient`, restricted to the fields `create_patient_resource`
touches. `note` is included to record that the source never attaches the
annotation it builds (patient.py lines 52-54): it stays `none`. -/
structure Patient where
  id : String
  text : Narrative
  birthDate : Option DateT
  gender : Option String
  note : Option Annot
deriving DecidableEq

/-- FHIR `Condition`, restricted to the fields condition.py assigns. -/
structure Condition where
  id : String
  subject : Reference
  text : Narrative
  clinicalStatus : Option CodeableConcept
  verificationStatus : Option CodeableConcept
  category : Option (List CodeableConcept)
  code : Option CodeableConcept
  note : Option (List Annot)
deriving DecidableEq

/-- FHIR `Observation`, restricted to the fields the three observation modules
assign. `Observation.construct()` leaves every optional field unset (`none`). -/
structure Observation where
  id : String
  status : String
  subject : Reference
  text : Option Narrative
  category : Option (List CodeableConcept)
  code : Option CodeableConcept
  valueBoolean : Option Bool
  valueString : Option String
  valueQuantity : Option Quantity
  valueCodeableConcept : Option CodeableConcept
  dataAbsentReason : Option CodeableConcept
  interpretation : Option (List CodeableConcept)
  note : Option (List Annot)
deriving DecidableEq

/-- An `Observation.construct()` result before any optional field is set. -/
def Observation.construct (obs_id : String) (patient_id : String) : Observation :=
  { id := obs_id
    status := "final"
    subject := { reference := "urn:uuid:" ++ patient_id }
    text := none
    category := none
    code := none
    valueBoolean := none
    valueString := none
    valueQuantity := none
    valueCodeableConcept := none
    dataAbsentReason := none
    interpretation := none
    note := none }

/-- A bundled resource (the payload of a `BundleEntry`). -/
inductive Resource where
  | patient (p : Patient)
  | condition (c : Condition)
  | observation (o : Observation)
deriving DecidableEq

/-- FHIR `BundleEntry`: the `fullUrl` key and the carried resource. -/
structure BundleEntry where
  fullUrl : String
  resource : Resource
deriving DecidableEq

/-- FHIR `Bundle` as etl.py builds it: id, type `"collection"`, entries. -/
structure Bundle where
  id : String
  type_tag : String
  entry : List BundleEntry
deriving DecidableEq

/-- Everything of the patient narrative (patient.py lines 35-40) that stands
before the verbatim source identifier. -/
def patientDivPre (age : ℤ) : String :=
  "<div xmlns='http://www.w3.org/1999/xhtml'>" ++
  "Birthdate is approximated based on the given age of " ++
  toString age ++
  " calculated from a hypothetical data January 1, 2010, due to the original " ++
  "birthdate being unknown. In the source system the old id was '"

/-- Narrative text of patient.py lines 35-40, split so that the approximation
statement and the verbatim source identifier are visible concatenands. -/
def patientDiv (age : ℤ) (old_id : String) : String :=
  patientDivPre age ++ old_id ++ "'.</div>"

/-- The annotation patient.py lines 52-54 constructs and then never attaches
to the returned resource. -/
def patientFactoryNote : Annot :=
  { text := "Birthdate is approximated based on age 51 as of January 1, 2020, " ++
            "due to the original birthdate being unknown." }

/-- Embeds `create_patient_resource` (patient.py lines 7-56): narrative from
the age and the old id, birth date `Date(2010 - age, 1, 1)` — the date
constructor's `ValueError` for a year outside 1..9999 propagates here, on
line 43, before the sex check of lines 45-50 — gender from the sex code,
`AttributeError` for a sex code outside m/f.  The annotation of lines 52-54
is constructed (see `patientFactoryNote`) but never assigned to the patient,
so the returned resource's `note` is `none`. -/
def create_patient_resource (patient_id : String) (age : ℤ) (sex : String)
    (old_id : String) : Except PyErr Patient := do
  let text : Narrative := { status := "generated", div := patientDiv age old_id }
  let birthDate ← DateT.construct (2010 - age) 1 1
  if sex = "m" then
    .ok { id := patient_id, text := text, birthDate := some birthDate
          gender := some "male", note := none }
  else if sex = "f" then
    .ok { id := patient_id, text := text, birthDate := some birthDate
          gender := some "female", note := none }
  else
    .error (.attributeError
      ("sex needs to be either \"m\" or \"f\", but \"" ++ sex ++ "\" was provided."))

/-- Shared clinical-status concept `active`/`Active` (condition.py). -/
def clinicalActiveCC : CodeableConcept :=
  { coding := some [{ system := "http://terminology.hl7.org/CodeSystem/condition-clinical"
                      code := "active", display := some "Active" }]
    text := none }

/-- Shared verification-status concept `confirmed`/`Confirmed` (condition.py). -/
def verificationConfirmedCC : CodeableConcept :=
  { coding := some [{ system := "http://terminology.hl7.org/CodeSystem/condition-ver-status"
                      code := "confirmed", display := some "Confirmed" }]
    text := none }

/-- Shared category concept `encounter-diagnosis` (condition.py). -/
def encounterDiagnosisCC : CodeableConcept :=
  { coding := some [{ system := "http://terminology.hl7.org/CodeSystem/condition-category"
                      code := "encounter-diagnosis", display := some "Encounter Diagnosis" }]
    text := none }

/-- The subtype-to-display-phrase chain of condition.py lines 28-38:
the four accepted enumerants map to their canonical phrases, anything else
raises `AttributeError`. -/
def aml_subtype_display (AML_subtype : String) : Except PyErr String :=
  if AML_subtype = "de novo" then .ok "de novo"
  else if AML_subtype = "sAML" then .ok "Secondary Acute Myeloid Leukemia (sAML)"
  else if AML_subtype = "tAML" then .ok "Therapy-related acute myeloid leukemia (tAML)"
  else if AML_subtype = "Unknown" then .ok "Unknown"
  else .error (.attributeError
    ("Wrong AML_subtype provided: \"" ++ AML_subtype ++ "\". AML_subtype needs to " ++
     "be one of the following options: \"de novo\", \"sAML\", \"tAML\", \"Unknown\"."))

/-- Embeds `create_aml_condition` (condition.py lines 9-83).  Note its
parameter list: `(cond_id, patient_id, AML_subtype)` — there is no `age`
parameter. -/
def create_aml_condition (cond_id : String) (patient_id : String)
    (AML_subtype : String) : Except PyErr Condition := do
  let subtype ← aml_subtype_display AML_subtype
  .ok { id := cond_id
        subject := { reference := "urn:uuid:" ++ patient_id }
        text := { status := "generated"
                  div := "<div xmlns='http://www.w3.org/1999/xhtml'>: Patient diagnosed " ++
                         "with Acute Myeloid Leukemia (AML), subtype: " ++ subtype ++ ".</div>" }
        clinicalStatus := some clinicalActiveCC
        verificationStatus := some verificationConfirmedCC
        category := some [encounterDiagnosisCC]
        code := some { coding := some [{ system := "http://snomed.info/sct"
                                         code := "91861009"
                                         display := some "Acute myeloid leukemia" }]
                       text := some ("Acute Myeloid Leukemia (AML), subtype: " ++ subtype) }
        note := some [{ text := "Patient diagnosed with AML, subtype: " ++ subtype ++ "." }] }

/-- Embeds `create_cr1_condition` (condition.py lines 86-145): fixed content,
no input variant, never raises. -/
def create_cr1_condition (cond_id : String) (patient_id : String) : Condition :=
  { id := cond_id
    subject := { reference := "urn:uuid:" ++ patient_id }
    text := { status := "generated"
              div := "<div xmlns='http://www.w3.org/1999/xhtml'>: First Complete Remission " ++
                     "(CR1) of Acute Myeloid Leukemia (AML) was achieved. </div>" }
    clinicalStatus := some
      { coding := some [{ system := "http://terminology.hl7.org/CodeSystem/condition-clinical"
                          code := "remission", display := some "Remission" }]
        text := some "First Complete Remission (CR1)" }
    verificationStatus := some verificationConfirmedCC
    category := some [encounterDiagnosisCC]
    code := some { coding := some [{ system := "http://snomed.info/sct"
                                     code := "765205004"
                                     display := some "Disorder in remission" }]
                   text := some "First Complete Remission (CR1) of Acute Myeloid Leukemia (AML)" }
    note := some [{ text := "Patient achieved first Complete Remission (CR1) from Acute " ++
                            "Myeloid Leukemia (AML)." }] }

/-- Embeds `create_examl_condition` (condition.py lines 148-206): fixed
content, no input variant, never raises. -/
def create_examl_condition (cond_id : String) (patient_id : String) : Condition :=
  { id := cond_id
    subject := { reference := "urn:uuid:" ++ patient_id }
    text := { status := "generated"
              div := "<div xmlns='http://www.w3.org/1999/xhtml'>: Diagnosed with " ++
                     "Extramedullary acute myelogenous leukemia (EXAML) </div>" }
    clinicalStatus := some clinicalActiveCC
    verificationStatus := some verificationConfirmedCC
    category := some [encounterDiagnosisCC]
    code := some { coding := some [{ system := "http://snomed.info/sct"
                                     code := "91861009"
                                     display := some "Acute myeloid leukemia" }]
                   text := some "Extramedullary acute myelogenous leukemia (EXAML)" }
    note := some [{ text := "Patient diagnosed with Extramedullary acute myelogenous " ++
                            "leukemia (EXAML)." }] }

/-- Shared observation category `survey` (observation_outcome.py). -/
def surveyCategoryCC : CodeableConcept :=
  { coding := some [{ system := "http://terminology.hl7.org/CodeSystem/observation-category"
                      code := "survey", display := some "Survey" }]
    text := none }

/-- Shared observation category `laboratory` (observation_genetics.py,
observation_lab.py). -/
def laboratoryCategoryCC : CodeableConcept :=
  { coding := some [{ system := "http://terminology.hl7.org/CodeSystem/observation-category"
                      code := "laboratory", display := some "Laboratory" }]
    text := none }

/-- The narrative wrapper the observation and condition modules use:
a div whose body starts with a colon and a space. -/
def divWrap (t : String) : String :=
  "<div xmlns='http://www.w3.org/1999/xhtml'>: " ++ t ++ "</div>"

/-- Narrative for an OSSTAT event that occurred (observation_outcome.py lines 31-32). -/
def osstatOccurText : String :=
  "Event: Overall Survival (OSSTAT) occurred, meaning that the patient died during this study."

/-- Narrative for an OSSTAT event that did not occur (lines 32-34). -/
def osstatNotOccurText : String :=
  "Event: Overall Survival (OSSTAT) did not occur, meaning that the patient was alive " ++
  "at the end of the study period or lost to follow-up (censored)."

/-- Narrative for an EFSSTAT event that occurred (lines 36-37). -/
def efsstatOccurText : String :=
  "Event: Event Free Survival (EFSSTAT) occurred, meaning that at least one event " ++
  "occurred during this study."

/-- Narrative for an EFSSTAT event that did not occur (lines 37-41); the source
string has two spaces after the comma. -/
def efsstatNotOccurText : String :=
  "Event: Event Free Survival (EFSSTAT) did not occur,  meaning that no event occurred " ++
  "until the end of the study period or lost to follow-up (censored)."

/-- Embeds `create_binary_event_observation` (observation_outcome.py lines
10-116).  The first chain picks the narrative (raising `AttributeError` for an
event outside OSSTAT/EFSSTAT); the OSSTAT block then populates valueBoolean,
interpretation and note; the second block is guarded by a comparison against
the literal `EFSTAT` (lines 96-114), kept exactly as written: it can never
match a validated event, so for EFSSTAT those fields stay unset.
The source's `value` parameter is used only as a condition, so it is taken
here as the `Bool` its type hint declares. -/
def create_binary_event_observation (obs_id : String) (patient_id : String)
    (event : String) (value : Bool) : Except PyErr Observation := do
  let observation_text ←
    if event = "OSSTAT" then
      .ok (if value then osstatOccurText else osstatNotOccurText)
    else if event = "EFSSTAT" then
      .ok (if value then efsstatOccurText else efsstatNotOccurText)
    else
      (.error (.attributeError
        ("Wrong event (\"" ++ event ++ "\") provided. The event needs to be one of " ++
         "these values: \"OSSTAT\", \"EFSSTAT\".")) : Except PyErr String)
  let obs := { Observation.construct obs_id patient_id with
    text := some { status := "generated", div := divWrap observation_text }
    category := some [surveyCategoryCC]
    code := some { coding := some [{ system := "http://snomed.info/sct"
                                     code := "278844005"
                                     display := some "General clinical state" }]
                   text := some (if event = "OSSTAT" then "Overall Survival Status (OSSTAT)"
                                 else "Event Free Survival Status (EFSSTAT)") } }
  let obs :=
    if event = "OSSTAT" then
      if !value then
        { obs with
          valueBoolean := some false
          interpretation := some [{ coding := some [{ system := "http://snomed.info/sct"
                                                      code := "438949009"
                                                      display := some "Alive" }]
                                    text := some "Alive or censored" }]
          note := some [{ text := osstatNotOccurText }] }
      else
        { obs with
          valueBoolean := some true
          interpretation := some [{ coding := some [{ system := "http://snomed.info/sct"
                                                      code := "419099009"
                                                      display := some "Dead" }]
                                    text := none }]
          note := some [{ text := osstatOccurText }] }
    else obs
  let obs :=
    if event = "EFSTAT" then
      if !value then
        { obs with
          valueBoolean := some false
          interpretation := some [{ coding := none, text := some efsstatNotOccurText }]
          note := some [{ text := efsstatNotOccurText }] }
      else
        { obs with
          valueBoolean := some true
          interpretation := some [{ coding := none, text := some efsstatOccurText }]
          note := some [{ text := efsstatOccurText }] }
    else obs
  .ok obs

/-- Stands for CPython's decimal rendering of a float inside an f-string.
It only feeds narrative strings that no settled claim measures textually. -/
def pyFloatStr (q : ℚ) : String := toString q

/-- Embeds `create_event_time_observation` (observation_outcome.py lines
119-185): a months-valued quantity plus a narrative echoing the value (the
EFSTM narrative ends in two periods, as in the source). -/
def create_event_time_observation (obs_id : String) (patient_id : String)
    (event : String) (value : ℚ) : Except PyErr Observation := do
  let observation_text ←
    if event = "OSTM" then
      .ok ("Event duration of the Overall Survival (OSSTAT) events is " ++ pyFloatStr value ++
           " months, since the beginning of the study.")
    else if event = "EFSTM" then
      .ok ("Event duration of the Event Free Survival (EFSSTAT) is " ++ pyFloatStr value ++
           " months, since the beginning of the study..")
    else
      (.error (.attributeError
        ("Wrong event (\"" ++ event ++ "\") provided. The event needs to be one of " ++
         "these values: \"OSTM\", \"EFSTM\".")) : Except PyErr String)
  .ok { Observation.construct obs_id patient_id with
    text := some { status := "generated", div := divWrap observation_text }
    category := some [surveyCategoryCC]
    code := some { coding := some [{ system := "http://snomed.info/sct"
                                     code := "445320007"
                                     display := some "Survival time" }]
                   text := some (if event = "OSTM" then "Overall Survival Time (OSTM)"
                                 else "Event Free Survival Time (EFSTM)") }
    valueQuantity := some { value := value, unit := "months"
                            system := "http://unitsofmeasure.org", code := "mo" }
    note := some [{ text := observation_text }] }

/-- Interpretation `A`/`Abnormal` for a complex karyotype
(observation_genetics.py lines 55-61). -/
def abnormalInterpCC : CodeableConcept :=
  { coding := some [{ system := "http://terminology.hl7.org/CodeSystem/v3-ObservationInterpretation"
                      code := "A", display := some "Abnormal" }]
    text := none }

/-- Interpretation `N`/`Normal` for a normal karyotype (lines 64-70). -/
def normalInterpCC : CodeableConcept :=
  { coding := some [{ system := "http://terminology.hl7.org/CodeSystem/v3-ObservationInterpretation"
                      code := "N", display := some "Normal" }]
    text := none }

/-- Embeds `create_karyotype_observation` (observation_genetics.py lines
8-71): a string value and an `Abnormal`/`Normal` interpretation from the
complex-karyotype flag. -/
def create_karyotype_observation (obs_id : String) (patient_id : String)
    (complex_karyotype : Bool) : Observation :=
  let observation_text :=
    if complex_karyotype then "Complex cytogenetic karyotype observed."
    else "Normal cytogenetic karyotype observed."
  let base := { Observation.construct obs_id patient_id with
    text := some { status := "generated", div := divWrap observation_text }
    category := some [laboratoryCategoryCC]
    code := some { coding := some [{ system := "http://loinc.org"
                                     code := "29770-5"
                                     display := some "Karyotype [Identifier] in Blood or Tissue Nominal" }]
                   text := some "Test whether the cytogenetic karyotype is normal or complex (abnormal)" } }
  if complex_karyotype then
    { base with
      valueString := some "Complex karyotype observed"
      interpretation := some [abnormalInterpCC] }
  else
    { base with
      valueString := some "Normal karyotype observed"
      interpretation := some [normalInterpCC] }

/-- SNOMED concept used for a detected mutation (observation_genetics.py lines 128-134). -/
def detectedValueCC : CodeableConcept :=
  { coding := some [{ system := "http://snomed.info/sct"
                      code := "260373001", display := some "Detected" }]
    text := none }

/-- Interpretation `POS`/`Positive` (lines 135-141). -/
def positiveInterpCC : CodeableConcept :=
  { coding := some [{ system := "http://terminology.hl7.org/CodeSystem/v3-ObservationInterpretation"
                      code := "POS", display := some "Positive" }]
    text := none }

/-- SNOMED concept used for a not-detected mutation (lines 143-149). -/
def notDetectedValueCC : CodeableConcept :=
  { coding := some [{ system := "http://snomed.info/sct"
                      code := "260415000", display := some "Not Detected" }]
    text := none }

/-- Interpretation `NEG`/`Negative` (lines 150-156). -/
def negativeInterpCC : CodeableConcept :=
  { coding := some [{ system := "http://terminology.hl7.org/CodeSystem/v3-ObservationInterpretation"
                      code := "NEG", display := some "Negative" }]
    text := none }

/-- Data-absent-reason `unknown` (lines 158-164). -/
def unknownAbsentCC : CodeableConcept :=
  { coding := some [{ system := "http://terminology.hl7.org/CodeSystem/data-absent-reason"
                      code := "unknown", display := some "Unknown" }]
    text := none }

/-- Embeds `create_genetic_observation` (observation_genetics.py lines
74-166).  `Detected` and `Not Detected` populate a coded value and an
interpretation; the `else` branch (everything else, i.e. `Unknown`) populates
only a data-absent-reason. -/
def create_genetic_observation (obs_id : String) (patient_id : String)
    (gene_name : String) (mutation_status : String) (code_system : String)
    (code_code : String) (code_display_name : String) (code_text : String) :
    Observation :=
  let code_system' :=
    if code_system = "LOINC" then "http://loinc.org" else "http://snomed.info/sct"
  let base := { Observation.construct obs_id patient_id with
    text := some { status := "generated"
                   div := "<div xmlns='http://www.w3.org/1999/xhtml'>Gene: " ++ gene_name ++
                          ", Mutation status: " ++ mutation_status ++ ".</div>" }
    category := some [laboratoryCategoryCC]
    code := some { coding := some [{ system := code_system'
                                     code := code_code
                                     display := some code_display_name }]
                   text := some code_text } }
  if mutation_status = "Detected" then
    { base with valueCodeableConcept := some detectedValueCC
                interpretation := some [positiveInterpCC] }
  else if mutation_status = "Not Detected" then
    { base with valueCodeableConcept := some notDetectedValueCC
                interpretation := some [negativeInterpCC] }
  else
    { base with dataAbsentReason := some unknownAbsentCC }

/-- Embeds `create_observation_lab` (observation_lab.py lines 9-78): unit
chosen purely by the variable identity (WBC/PLT then HB, in source order),
`AttributeError` for every other variable.  The source parameter `variable`
is a Lean keyword, so it is called `variable_` here. -/
def create_observation_lab (obs_id : String) (patient_id : String)
    (variable_ : String) (code_system : String) (code_code : String)
    (code_display_name : String) (value : ℚ) : Except PyErr Observation := do
  let code_system' :=
    if code_system = "LOINC" then "http://loinc.org" else "http://snomed.info/sct"
  let base := { Observation.construct obs_id patient_id with
    text := some { status := "generated"
                   div := "<div xmlns='http://www.w3.org/1999/xhtml'>: " ++ variable_ ++ ":" ++
                          pyFloatStr value ++ ".</div>" }
    category := some [laboratoryCategoryCC]
    code := some { coding := some [{ system := code_system'
                                     code := code_code
                                     display := some code_display_name }]
                   text := none } }
  let value_quantity ←
    if variable_ = "WBC" ∨ variable_ = "PLT" then
      .ok { value := value, unit := "10^6/L"
            system := "http://unitsofmeasure.org", code := "10*6/L" }
    else if variable_ = "HB" then
      .ok { value := value, unit := "mmol/L"
            system := "http://unitsofmeasure.org", code := "mmol/L" }
    else
      (.error (.attributeError
        ("Wrong variable (\"" ++ variable_ ++ "\") provided. The variable needs to be " ++
         "one of these values: \"HB\", \"PLT\", \"WBC\"")) : Except PyErr Quantity)
  .ok { base with valueQuantity := some value_quantity }

/-- One row of the mapping table `input/mapping_fhir.xlsx` as etl.py consumes
it.  The source column `Type` is a Lean keyword, so the field is `type_tag`.
`Vocabulary Code` is read through `str(...)` by etl.py, hence a string here. -/
structure MappingRow where
  Variable : String
  type_tag : String
  Vocabulary : String
  VocabularyCode : String
  VocabularyDisplayName : String
  Label : String
deriving DecidableEq

/-- One patient row: an association list from column name to raw cell. -/
def Row : Type := List (String × PyVal)

/-- Embeds `patient_row[key]`: the cell, or `KeyError` for an absent column. -/
def rowGet (row : Row) (key : String) : Except PyErr PyVal :=
  match List.find? (fun kv => kv.fst = key) row with
  | some kv => .ok kv.snd
  | none => .error (.keyError key)

/-- Reads the AGE cell as the integer the downstream `2010 - age` and
`Date(year, 1, 1)` calls require.  In CPython a non-int cell reaches those
calls and raises `TypeError` there; that failure is folded into the
extraction here (every row evaluated below carries an integer age). -/
def rowGetInt (row : Row) (key : String) : Except PyErr ℤ := do
  match ← rowGet row key with
  | .int n => .ok n
  | _ => .error (.typeError ("unsupported cell type for " ++ key))

/-- True when every character of the list is a decimal digit. -/
def allDigits (cs : List Char) : Bool := cs.all (fun c => c.isDigit)

/-- Numeric value of a digit list (most significant first). -/
def digitsToNat (cs : List Char) : ℕ :=
  cs.foldl (fun n c => 10 * n + (c.toNat - 48)) 0

/-- Embeds CPython `float(s)` on the plain decimal strings this pipeline
feeds it (sign, digits, optional single dot): the exact rational value, or
`ValueError` for an unparseable string.  Exotic accepted spellings (`inf`,
exponents, underscores) never occur in this program's inputs. -/
def pyFloatOfString (s : String) : Except PyErr ℚ :=
  let t := s.trim
  let bad : Except PyErr ℚ :=
    .error (.valueError ("could not convert string to float: " ++ s))
  let (neg, u) :=
    if t.startsWith "-" then (true, t.drop 1)
    else if t.startsWith "+" then (false, t.drop 1)
    else (false, t)
  match u.splitOn "." with
  | [a] =>
    if 0 < a.length ∧ allDigits a.data then
      let q : ℚ := (digitsToNat a.data : ℚ)
      .ok (if neg then -q else q)
    else bad
  | [a, b] =>
    if 0 < a.length + b.length ∧ allDigits a.data ∧ allDigits b.data then
      let q : ℚ := (digitsToNat a.data : ℚ) + (digitsToNat b.data : ℚ) / ((10 : ℚ) ^ b.length)
      .ok (if neg then -q else q)
    else bad
  | _ => bad

/-- Converts a survival-time or laboratory cell the way etl.py lines 70-72,
77-79 and 123-125 do: a string is comma-normalized and parsed as a float, a
numeric cell passes through.  A missing (NaN) cell flows into the quantity in
CPython; `ℚ` cannot carry NaN, so that corner is modelled as an error — it is
unreachable in `create_bundle`, which fails at the earlier AML-diagnosis call
(see `call_create_aml_condition_with_age`). -/
def cellToFloat (cell : PyVal) : Except PyErr ℚ :=
  match cell with
  | .str s => pyFloatOfString (s.replace "," ".")
  | .int n => .ok (n : ℚ)
  | .float q => .ok q
  | .nan => .error (.typeError "float value is NaN")

/-- The tri-state derivation of etl.py lines 98-103: a cell equal to 1 is
`Detected`, equal to 0 is `Not Detected`, anything else (strings, other
numbers, missing) is `Unknown`. -/
def mutation_status_of (cell : PyVal) : String :=
  if pyEqInt cell 1 then "Detected"
  else if pyEqInt cell 0 then "Not Detected"
  else "Unknown"

/-- Models the call on etl.py line 46:
`create_aml_condition(str(uuid4()), patient_r.id, age=patient_row['AGE'], AML_subtype=subtype)`.
`create_aml_condition` (condition.py line 9) declares only
`(cond_id, patient_id, AML_subtype)` — it has no `age` parameter — so CPython
raises `TypeError` at this call, before the function body runs, on every row
`create_bundle` processes. -/
def call_create_aml_condition_with_age (_cond_id : String) (_patient_id : String)
    (_age : PyVal) (_AML_subtype : String) : Except PyErr Condition :=
  .error (.typeError "create_aml_condition() got an unexpected keyword argument 'age'")

/-- The fixed-schema columns etl.py lines 89-90 seed the processed set with. -/
def fixedProcessedCols : List String :=
  ["AGE", "SEX", "SUBJID", "AMLSTAT", "CR1", "EXAML", "OSSTAT", "EFSSTAT",
   "OSTM", "EFSTM", "CGCX", "CGNK"]

/-- Embeds `create_bundle` (etl.py lines 15-139).  `uuids` supplies the
successive `str(uuid4())` identifiers; `mapping` is the module-wide mapping
table, passed explicitly.  The steps follow the source line by line; note
that the AML-diagnosis step (line 46) raises `TypeError` in CPython because
it passes a keyword argument `age` that `create_aml_condition` does not
declare, so every invocation fails there and the remaining steps, embedded
below exactly as written, are dead code. -/
def create_bundle (uuids : ℕ → String) (mapping : List MappingRow)
    (patient_row : Row) : Except PyErr Bundle := do
  let bundleId := uuids 0
  let ageInt ← rowGetInt patient_row "AGE"
  let sexCell ← rowGet patient_row "SEX"
  let subjCell ← rowGet patient_row "SUBJID"
  let patient_r ← create_patient_resource (uuids 1) ageInt (pyAsStr sexCell) (pyAsStr subjCell)
  let entries : List BundleEntry :=
    [{ fullUrl := "urn:uuid:" ++ patient_r.id, resource := .patient patient_r }]
  let amlstatCell ← rowGet patient_row "AMLSTAT"
  let subtype := if pdIsna amlstatCell then "Unknown" else pyAsStr amlstatCell
  let aml_cond_r ← call_create_aml_condition_with_age (uuids 2) patient_r.id
    (.int ageInt) subtype
  let entries := entries ++
    [{ fullUrl := "urn:uuid:" ++ aml_cond_r.id, resource := .condition aml_cond_r }]
  let k := 3
  let cr1Cell ← rowGet patient_row "CR1"
  let (entries, k) :=
    if pyEqInt cr1Cell 1 then
      let cr1_cond_r := create_cr1_condition (uuids k) patient_r.id
      (entries ++ [{ fullUrl := "urn:uuid:" ++ cr1_cond_r.id
                     resource := .condition cr1_cond_r }], k + 1)
    else (entries, k)
  let examlCell ← rowGet patient_row "EXAML"
  let (entries, k) :=
    if pyEqInt examlCell 1 then
      let examl_cond_r := create_examl_condition (uuids k) patient_r.id
      (entries ++ [{ fullUrl := "urn:uuid:" ++ examl_cond_r.id
                     resource := .condition examl_cond_r }], k + 1)
    else (entries, k)
  let osstatCell ← rowGet patient_row "OSSTAT"
  let osstat_obs_r ← create_binary_event_observation (uuids k) patient_r.id "OSSTAT"
    (pyTruthy osstatCell)
  let entries := entries ++
    [{ fullUrl := "urn:uuid:" ++ osstat_obs_r.id, resource := .observation osstat_obs_r }]
  let efsstatCell ← rowGet patient_row "EFSSTAT"
  let efsstat_obs_r ← create_binary_event_observation (uuids (k + 1)) patient_r.id "EFSSTAT"
    (pyTruthy efsstatCell)
  let entries := entries ++
    [{ fullUrl := "urn:uuid:" ++ efsstat_obs_r.id, resource := .observation efsstat_obs_r }]
  let ostmCell ← rowGet patient_row "OSTM"
  let ostmVal ← cellToFloat ostmCell
  let ostm_obs_r ← create_event_time_observation (uuids (k + 2)) patient_r.id "OSTM" ostmVal
  let entries := entries ++
    [{ fullUrl := "urn:uuid:" ++ ostm_obs_r.id, resource := .observation ostm_obs_r }]
  let efstmCell ← rowGet patient_row "EFSTM"
  let efstmVal ← cellToFloat efstmCell
  let efstm_obs_r ← create_event_time_observation (uuids (k + 3)) patient_r.id "EFSTM" efstmVal
  let entries := entries ++
    [{ fullUrl := "urn:uuid:" ++ efstm_obs_r.id, resource := .observation efstm_obs_r }]
  let cgcxCell ← rowGet patient_row "CGCX"
  let karyo_complex := pyEqInt cgcxCell 1
  let obs_karyo_r := create_karyotype_observation (uuids (k + 4)) patient_r.id karyo_complex
  let entries := entries ++
    [{ fullUrl := "urn:uuid:" ++ obs_karyo_r.id, resource := .observation obs_karyo_r }]
  let k := k + 5
  let processed_cols := fixedProcessedCols
  let geneticCols := (mapping.filter
    (fun r => r.type_tag = "molecular genetics" ∨ r.type_tag = "cytogenetics")).map
    (fun r => r.Variable)
  let st ← geneticCols.foldlM
    (fun (st : List BundleEntry × List String × ℕ) col => do
      let (entries, processed, k) := st
      if processed.contains col then
        .ok st
      else
        match List.find? (fun r => r.Variable = col) mapping with
        | none => .error (.indexError "single positional indexer is out-of-bounds")
        | some mapping_var => do
          let cell ← rowGet patient_row col
          let mutation_status := mutation_status_of cell
          let text := col ++ " [" ++ mapping_var.type_tag ++ ";" ++ mapping_var.Label ++ "]"
          let obs_r := create_genetic_observation (uuids k) patient_r.id col mutation_status
            mapping_var.Vocabulary.trim mapping_var.VocabularyCode.trim
            mapping_var.VocabularyDisplayName.trim text
          .ok (entries ++ [{ fullUrl := "urn:uuid:" ++ obs_r.id
                             resource := .observation obs_r }],
               processed ++ [col], k + 1))
    (entries, processed_cols, k)
  let labCols := (mapping.filter (fun r => r.type_tag = "laboratory value")).map
    (fun r => r.Variable)
  let st ← labCols.foldlM
    (fun (st : List BundleEntry × List String × ℕ) col => do
      let (entries, processed, k) := st
      if processed.contains col then
        .ok st
      else
        match List.find? (fun r => r.Variable = col) mapping with
        | none => .error (.indexError "single positional indexer is out-of-bounds")
        | some mapping_var => do
          let cell ← rowGet patient_row col
          let val ← cellToFloat cell
          let obs_l ← create_observation_lab (uuids k) patient_r.id col
            mapping_var.Vocabulary.trim mapping_var.VocabularyCode.trim
            mapping_var.VocabularyDisplayName.trim val
          .ok (entries ++ [{ fullUrl := "urn:uuid:" ++ obs_l.id
                             resource := .observation obs_l }],
               processed ++ [col], k + 1))
    st
  let (entries, processed, _) := st
  let left_cols := (mapping.map (fun r => r.Variable)).filter
    (fun col => !(processed.contains col))
  if left_cols.length = 0 then
    .ok { id := bundleId, type_tag := "collection", entry := entries }
  else
    .error .assertionError

/-! Theorems about the embedded pipeline. -/

/-- Inversion helper: a successful Except bind passes through a successful
first step. -/
theorem bind_ok_inv {α β γ : Type} {x : Except γ α} {f : α → Except γ β} {b : β}
    (h : (x >>= f) = .ok b) : ∃ a, x = .ok a ∧ f a = .ok b := by
  cases x with
  | ok a => exact ⟨a, rfl, h⟩
  | error e => exact Except.noConfusion h

/-- C1: for every boolean value, the binary-event factory called with event
`EFSSTAT` yields an Observation whose generated narrative is the
EFSSTAT-specific text (chosen by the value), while `valueBoolean`,
`interpretation` and `note` stay unset — the population block is guarded by a
comparison against the literal `EFSTAT`, which `EFSSTAT` never equals. -/
theorem efsstat_narrative_only_fields_unset (obs_id patient_id : String) (value : Bool) :
    ∃ obs, create_binary_event_observation obs_id patient_id "EFSSTAT" value = .ok obs ∧
      obs.text = some { status := "generated"
                        div := divWrap (if value then efsstatOccurText else efsstatNotOccurText) } ∧
      obs.valueBoolean = none ∧ obs.interpretation = none ∧ obs.note = none := by
  cases value <;> exact ⟨_, rfl, rfl, rfl, rfl, rfl⟩

/-- C5: the tri-state derivation is total — a cell equal to 1 gives
`Detected`, equal to 0 gives `Not Detected`, every other cell (the missing
cell included) gives `Unknown` — and the genetic factory populates the coded
value and interpretation pair exactly for the first two statuses, while
`Unknown` sets only the data-absent-reason. -/
theorem gene_tristate_total_factory_fields (cell : PyVal)
    (obs_id patient_id gene_name code_system code_code code_display_name code_text : String) :
    (pyEqInt cell 1 = true → mutation_status_of cell = "Detected") ∧
    (pyEqInt cell 0 = true → mutation_status_of cell = "Not Detected") ∧
    (pyEqInt cell 1 = false → pyEqInt cell 0 = false → mutation_status_of cell = "Unknown") ∧
    mutation_status_of PyVal.nan = "Unknown" ∧
    ((create_genetic_observation obs_id patient_id gene_name "Detected"
        code_system code_code code_display_name code_text).valueCodeableConcept =
          some detectedValueCC ∧
     (create_genetic_observation obs_id patient_id gene_name "Detected"
        code_system code_code code_display_name code_text).interpretation =
          some [positiveInterpCC] ∧
     (create_genetic_observation obs_id patient_id gene_name "Detected"
        code_system code_code code_display_name code_text).dataAbsentReason = none) ∧
    ((create_genetic_observation obs_id patient_id gene_name "Not Detected"
        code_system code_code code_display_name code_text).valueCodeableConcept =
          some notDetectedValueCC ∧
     (create_genetic_observation obs_id patient_id gene_name "Not Detected"
        code_system code_code code_display_name code_text).interpretation =
          some [negativeInterpCC] ∧
     (create_genetic_observation obs_id patient_id gene_name "Not Detected"
        code_system code_code code_display_name code_text).dataAbsentReason = none) ∧
    ((create_genetic_observation obs_id patient_id gene_name "Unknown"
        code_system code_code code_display_name code_text).valueCodeableConcept = none ∧
     (create_genetic_observation obs_id patient_id gene_name "Unknown"
        code_system code_code code_display_name code_text).interpretation = none ∧
     (create_genetic_observation obs_id patient_id gene_name "Unknown"
        code_system code_code code_display_name code_text).dataAbsentReason =
          some unknownAbsentCC) := by
  refine ⟨?_, ?_, ?_, rfl, ⟨rfl, rfl, rfl⟩, ⟨rfl, rfl, rfl⟩, ⟨rfl, rfl, rfl⟩⟩
  · intro h; simp [mutation_status_of, h]
  · intro h
    have h1 : pyEqInt cell 1 = false := by
      cases cell with
      | int n => simp [pyEqInt] at h ⊢; omega
      | float q => simp [pyEqInt] at h ⊢; rw [h]; norm_num
      | str s => simp [pyEqInt]
      | nan => simp [pyEqInt]
    simp [mutation_status_of, h, h1]
  · intro h1 h0; simp [mutation_status_of, h1, h0]

/-- Closed witness for `gene_tristate_total_factory_fields`: the three
derivation branches evaluated at a cell equal to 1, equal to 0, and at a
string cell. -/
theorem gene_tristate_witness :
    mutation_status_of (.int 1) = "Detected" ∧
    mutation_status_of (.int 0) = "Not Detected" ∧
    mutation_status_of (.str "1") = "Unknown" :=
  ⟨(gene_tristate_total_factory_fields (.int 1) "o" "p" "g" "s" "c" "d" "t").1 rfl,
   (gene_tristate_total_factory_fields (.int 0) "o" "p" "g" "s" "c" "d" "t").2.1 rfl,
   (gene_tristate_total_factory_fields (.str "1") "o" "p" "g" "s" "c" "d" "t").2.2.1 rfl rfl⟩

/-- C6: the lab factory's unit is a function of the variable identity alone —
`HB` always yields `mmol/L`, `WBC` and `PLT` always yield `10^6/L`, and every
other identity fails with the invalid-variable `AttributeError` before an
Observation is produced. -/
theorem lab_unit_by_variable_identity
    (obs_id patient_id code_system code_code code_display_name : String)
    (value : ℚ) (variable_ : String) :
    (variable_ = "HB" →
      ∃ o, create_observation_lab obs_id patient_id variable_ code_system code_code
             code_display_name value = .ok o ∧
        o.valueQuantity = some { value := value, unit := "mmol/L"
                                 system := "http://unitsofmeasure.org", code := "mmol/L" }) ∧
    (variable_ = "WBC" ∨ variable_ = "PLT" →
      ∃ o, create_observation_lab obs_id patient_id variable_ code_system code_code
             code_display_name value = .ok o ∧
        o.valueQuantity = some { value := value, unit := "10^6/L"
                                 system := "http://unitsofmeasure.org", code := "10*6/L" }) ∧
    (variable_ ≠ "HB" → variable_ ≠ "WBC" → variable_ ≠ "PLT" →
      create_observation_lab obs_id patient_id variable_ code_system code_code
        code_display_name value =
      .error (.attributeError
        ("Wrong variable (\"" ++ variable_ ++ "\") provided. The variable needs to be " ++
         "one of these values: \"HB\", \"PLT\", \"WBC\""))) := by
  refine ⟨?_, ?_, ?_⟩
  · rintro rfl; exact ⟨_, rfl, rfl⟩
  · rintro (rfl | rfl) <;> exact ⟨_, rfl, rfl⟩
  · intro hHB hWBC hPLT
    simp only [create_observation_lab, bind, Except.bind]
    rw [if_neg (by simp [hWBC, hPLT]), if_neg hHB]

/-- Closed witness for `lab_unit_by_variable_identity`: the three branches at
the variables HB, WBC and a fourth identity. -/
theorem lab_unit_witness :
    (∃ o, create_observation_lab "o" "p" "HB" "LOINC" "718-7" "Hemoglobin" 5 = .ok o ∧
       o.valueQuantity = some { value := 5, unit := "mmol/L"
                                system := "http://unitsofmeasure.org", code := "mmol/L" }) ∧
    (∃ o, create_observation_lab "o" "p" "WBC" "LOINC" "6690-2" "Leukocytes" 5 = .ok o ∧
       o.valueQuantity = some { value := 5, unit := "10^6/L"
                                system := "http://unitsofmeasure.org", code := "10*6/L" }) ∧
    create_observation_lab "o" "p" "CRP" "LOINC" "1988-5" "C reactive protein" 5 =
      .error (.attributeError
        ("Wrong variable (\"" ++ "CRP" ++ "\") provided. The variable needs to be " ++
         "one of these values: \"HB\", \"PLT\", \"WBC\"")) :=
  ⟨(lab_unit_by_variable_identity "o" "p" "LOINC" "718-7" "Hemoglobin" 5 "HB").1 rfl,
   (lab_unit_by_variable_identity "o" "p" "LOINC" "6690-2" "Leukocytes" 5 "WBC").2.1 (Or.inl rfl),
   (lab_unit_by_variable_identity "o" "p" "LOINC" "1988-5" "C reactive protein" 5 "CRP").2.2
     (by decide) (by decide) (by decide)⟩

/-- C7: the diagnosis factory accepts exactly the four subtype enumerants
(case-exact), embeds the corresponding canonical display phrase — the four
phrases pairwise distinct — into the code text and the note, and raises the
invalid-subtype error on every other input. -/
theorem aml_condition_subtype_contract (cond_id patient_id s : String) :
    ((∃ c, create_aml_condition cond_id patient_id s = .ok c) ↔
      (s = "de novo" ∨ s = "sAML" ∨ s = "tAML" ∨ s = "Unknown")) ∧
    (∀ t phrase, aml_subtype_display t = .ok phrase →
      ∃ c, create_aml_condition cond_id patient_id t = .ok c ∧
        c.code = some { coding := some [{ system := "http://snomed.info/sct"
                                          code := "91861009"
                                          display := some "Acute myeloid leukemia" }]
                        text := some ("Acute Myeloid Leukemia (AML), subtype: " ++ phrase) } ∧
        c.note = some [{ text := "Patient diagnosed with AML, subtype: " ++ phrase ++ "." }]) ∧
    (aml_subtype_display "de novo" = .ok "de novo" ∧
     aml_subtype_display "sAML" = .ok "Secondary Acute Myeloid Leukemia (sAML)" ∧
     aml_subtype_display "tAML" = .ok "Therapy-related acute myeloid leukemia (tAML)" ∧
     aml_subtype_display "Unknown" = .ok "Unknown") ∧
    ("de novo" ≠ "Secondary Acute Myeloid Leukemia (sAML)" ∧
     "de novo" ≠ "Therapy-related acute myeloid leukemia (tAML)" ∧
     ("de novo" ≠ "Unknown" : Prop) ∧
     "Secondary Acute Myeloid Leukemia (sAML)" ≠ "Therapy-related acute myeloid leukemia (tAML)" ∧
     ("Secondary Acute Myeloid Leukemia (sAML)" ≠ "Unknown" : Prop) ∧
     ("Therapy-related acute myeloid leukemia (tAML)" ≠ "Unknown" : Prop)) := by
  refine ⟨⟨?_, ?_⟩, ?_, ⟨rfl, rfl, rfl, rfl⟩, by decide⟩
  · rintro ⟨c, hc⟩
    by_contra hn
    push_neg at hn
    obtain ⟨h1, h2, h3, h4⟩ := hn
    simp [create_aml_condition, aml_subtype_display, bind, Except.bind,
      h1, h2, h3, h4] at hc
  · rintro (rfl | rfl | rfl | rfl) <;> exact ⟨_, rfl⟩
  · intro t phrase h
    simp only [create_aml_condition, bind, Except.bind, h]
    exact ⟨_, rfl, rfl, rfl⟩

/-- Closed witness for `aml_condition_subtype_contract`: the enumerant `sAML`
is accepted, a fifth value is not. -/
theorem aml_condition_subtype_witness :
    (∃ c, create_aml_condition "c0" "p0" "sAML" = .ok c) ∧
    ¬ ∃ c, create_aml_condition "c0" "p0" "AML" = .ok c :=
  ⟨(aml_condition_subtype_contract "c0" "p0" "sAML").1.mpr (Or.inr (Or.inl rfl)),
   fun h => by
     have := (aml_condition_subtype_contract "c0" "p0" "AML").1.mp h
     simp at this⟩

/-- C9 counterexample: at age 2011 (and the accepted sex code m) the factory
does not return a Patient — `Date(2010 - 2011, 1, 1)` raises `ValueError`
("year -1 is out of range") on patient.py line 43, before the sex check — so
the claim's "for every integer age" fails at this input. -/
theorem patient_factory_age_counterexample :
    create_patient_resource "pid-4" (2011 : ℤ) "m" "SUBJ-X" =
      .error (.valueError "year -1 is out of range") ∧
    ¬ ∃ p, create_patient_resource "pid-4" (2011 : ℤ) "m" "SUBJ-X" = .ok p := by
  refine ⟨rfl, ?_⟩
  rintro ⟨p, hp⟩
  have h2 : (Except.error (PyErr.valueError "year -1 is out of range") :
      Except PyErr Patient) = Except.ok p := hp
  exact Except.noConfusion h2

/-- C9 (amended): for every integer age with `-7989 ≤ age ≤ 2009` — exactly
the ages for which `2010 - age` lies in the 1..9999 year range
`datetime.date` accepts — the patient factory returns, for every source
identifier, a Patient whose birth date is January 1 of year `2010 - age`,
whose gender follows the m/f sex code, and whose generated narrative both
opens with the approximation statement and carries the source identifier
verbatim; any other sex code raises the invalid-sex `AttributeError` (ages
outside that range raise the date constructor's `ValueError` instead, see
`patient_factory_age_counterexample`). -/
theorem patient_factory_contract (patient_id : String) (age : ℤ) (sex old_id : String)
    (hlo : -7989 ≤ age) (hhi : age ≤ 2009) :
    (sex = "m" → ∃ p, create_patient_resource patient_id age sex old_id = .ok p ∧
      p.gender = some "male" ∧
      p.birthDate = some { year := 2010 - age, month := 1, day := 1 } ∧
      p.text.status = "generated" ∧ p.text.div = patientDiv age old_id) ∧
    (sex = "f" → ∃ p, create_patient_resource patient_id age sex old_id = .ok p ∧
      p.gender = some "female" ∧
      p.birthDate = some { year := 2010 - age, month := 1, day := 1 } ∧
      p.text.status = "generated" ∧ p.text.div = patientDiv age old_id) ∧
    (sex ≠ "m" → sex ≠ "f" →
      create_patient_resource patient_id age sex old_id =
        .error (.attributeError
          ("sex needs to be either \"m\" or \"f\", but \"" ++ sex ++ "\" was provided."))) ∧
    (∃ pre post, patientDiv age old_id = pre ++ old_id ++ post) ∧
    (∃ pre post, patientDiv age old_id =
      pre ++ "Birthdate is approximated based on the given age of " ++ post) := by
  have hd : DateT.construct (2010 - age) 1 1 =
      .ok { year := 2010 - age, month := 1, day := 1 } := by
    unfold DateT.construct
    rw [if_neg (by omega), if_neg (by norm_num), if_neg (by norm_num)]
  refine ⟨?_, ?_, ?_, ⟨patientDivPre age, "'.</div>", rfl⟩, ?_⟩
  · rintro rfl
    simp only [create_patient_resource, bind, Except.bind, hd]
    exact ⟨_, rfl, rfl, rfl, rfl, rfl⟩
  · rintro rfl
    simp only [create_patient_resource, bind, Except.bind, hd]
    exact ⟨_, rfl, rfl, rfl, rfl, rfl⟩
  · intro hm hf
    simp only [create_patient_resource, bind, Except.bind, hd]
    rw [if_neg hm, if_neg hf]
  · refine ⟨"<div xmlns='http://www.w3.org/1999/xhtml'>",
      toString age ++
      " calculated from a hypothetical data January 1, 2010, due to the original " ++
      "birthdate being unknown. In the source system the old id was '" ++
      old_id ++ "'.</div>", ?_⟩
    simp [patientDiv, patientDivPre, String.append_assoc]

/-- Closed witness for `patient_factory_contract`: the female branch and the
invalid-sex branch, each at a concrete in-range age. -/
theorem patient_factory_contract_witness :
    (∃ p, create_patient_resource "pid-2" (55 : ℤ) "f" "P001" = .ok p ∧
      p.gender = some "female" ∧
      p.birthDate = some { year := 2010 - 55, month := 1, day := 1 } ∧
      p.text.status = "generated" ∧ p.text.div = patientDiv 55 "P001") ∧
    create_patient_resource "pid-2" (55 : ℤ) "w" "P001" =
      .error (.attributeError
        ("sex needs to be either \"m\" or \"f\", but \"" ++ "w" ++ "\" was provided.")) :=
  ⟨(patient_factory_contract "pid-2" 55 "f" "P001" (by norm_num) (by norm_num)).2.1 rfl,
   (patient_factory_contract "pid-2" 55 "w" "P001" (by norm_num) (by norm_num)).2.2.1
     (by decide) (by decide)⟩

/-- C10: the annotation the patient factory builds (its hard-coded text
speaks of age 51 and January 1, 2020, see `patientFactoryNote`) is never
attached to the returned resource: the returned Patient carries no note, and
its narrative is the age-derived template, not the hard-coded text. -/
theorem patient_unused_note_not_attached (patient_id : String) (age : ℤ)
    (sex old_id : String) (p : Patient)
    (h : create_patient_resource patient_id age sex old_id = .ok p) :
    p.note = none ∧ p.note ≠ some patientFactoryNote ∧
    p.text.div = patientDiv age old_id := by
  unfold create_patient_resource at h
  obtain ⟨d, _, h⟩ := bind_ok_inv h
  by_cases hm : sex = "m"
  · rw [if_pos hm] at h
    injection h with h
    subst h
    exact ⟨rfl, by simp, rfl⟩
  · rw [if_neg hm] at h
    by_cases hf : sex = "f"
    · rw [if_pos hf] at h
      injection h with h
      subst h
      exact ⟨rfl, by simp, rfl⟩
    · rw [if_neg hf] at h
      exact absurd h (by simp)

/-- Closed witness for `patient_unused_note_not_attached` at a concrete
input. -/
theorem patient_unused_note_witness :
    ∃ p, create_patient_resource "pid-3" (51 : ℤ) "m" "P1" = .ok p ∧ p.note = none :=
  ⟨_, rfl, (patient_unused_note_not_attached "pid-3" 51 "m" "P1" _ rfl).1⟩

/-- No invocation of `create_bundle` returns a Bundle: every run that gets
past the row lookups and the patient factory reaches the AML-diagnosis call
of etl.py line 46, which raises `TypeError` (see
`call_create_aml_condition_with_age`), and every earlier step can only fail,
never skip ahead. -/
theorem create_bundle_never_ok (uuids : ℕ → String) (mapping : List MappingRow)
    (patient_row : Row) (b : Bundle) :
    create_bundle uuids mapping patient_row ≠ .ok b := by
  intro h
  unfold create_bundle at h
  obtain ⟨age, _, h⟩ := bind_ok_inv h
  obtain ⟨sexv, _, h⟩ := bind_ok_inv h
  obtain ⟨subjv, _, h⟩ := bind_ok_inv h
  obtain ⟨patient_r, _, h⟩ := bind_ok_inv h
  obtain ⟨amlv, _, h⟩ := bind_ok_inv h
  obtain ⟨aml_c, hc, _⟩ := bind_ok_inv h
  exact Except.noConfusion hc

/-- The end-to-end example row (SUBJID P001, AGE 55, SEX f, AMLSTAT de novo,
CR1 1, EXAML 0, OSSTAT 0, EFSSTAT 1, OSTM "12,5", EFSTM "8,0", CGCX 1). -/
def rowP001 : Row :=
  [("SUBJID", .str "P001"), ("AGE", .int 55), ("SEX", .str "f"),
   ("AMLSTAT", .str "de novo"), ("CR1", .int 1), ("EXAML", .int 0),
   ("OSSTAT", .int 0), ("EFSSTAT", .int 1), ("OSTM", .str "12,5"),
   ("EFSTM", .str "8,0"), ("CGCX", .int 1)]

/-- C3: evaluated at the end-to-end example row — for any uuid supply and any
mapping table — the bundle builder does not yield the claimed Bundle; it
raises `TypeError` at the AML-diagnosis step, because etl.py line 46 passes a
keyword argument `age` that `create_aml_condition` does not declare. -/
theorem bundle_P001_raises_typeerror (uuids : ℕ → String) (mapping : List MappingRow) :
    create_bundle uuids mapping rowP001 =
      .error (.typeError "create_aml_condition() got an unexpected keyword argument 'age'") :=
  rfl

/-- A row whose CR1 and EXAML flags both equal exactly 1. -/
def rowCR1andEXAML : Row :=
  [("SUBJID", .str "P002"), ("AGE", .int 40), ("SEX", .str "m"),
   ("AMLSTAT", .str "sAML"), ("CR1", .int 1), ("EXAML", .int 1),
   ("OSSTAT", .int 1), ("EFSSTAT", .int 0), ("OSTM", .str "3,0"),
   ("EFSTM", .str "2,0"), ("CGCX", .int 0)]

/-- C4: at a row with CR1 = 1 and EXAML = 1 the builder produces no Bundle at
all — it raises `TypeError` at the earlier AML-diagnosis call — so no Bundle
containing the gated CR1/Extramedullary Conditions exists, although the
gating code of etl.py lines 49-57 matches the claimed iff. -/
theorem bundle_cr1_row_raises_typeerror (uuids : ℕ → String) (mapping : List MappingRow) :
    create_bundle uuids mapping rowCR1andEXAML =
      .error (.typeError "create_aml_condition() got an unexpected keyword argument 'age'") :=
  rfl

/-- A one-row mapping table whose Variable (FLT3) is of genetic type. -/
def mappingFLT3 : List MappingRow :=
  [{ Variable := "FLT3", type_tag := "molecular genetics", Vocabulary := "SNOMED"
     VocabularyCode := "55446002", VocabularyDisplayName := "Genetic mutation"
     Label := "FLT3 mutation" }]

/-- A row that lacks the FLT3 column named by `mappingFLT3`. -/
def rowNoFLT3 : Row :=
  [("SUBJID", .str "P003"), ("AGE", .int 61), ("SEX", .str "f"),
   ("AMLSTAT", .str "tAML"), ("CR1", .int 0), ("EXAML", .int 0),
   ("OSSTAT", .int 0), ("EFSSTAT", .int 0), ("OSTM", .str "6,5"),
   ("EFSTM", .str "6,5"), ("CGCX", .int 0)]

/-- C2: at a mapping table whose Variable is absent from the source row —
the schema-drift scenario the claim says must end in the leftover assertion
or a lookup error — the builder instead raises `TypeError` at the
AML-diagnosis call, before the dispatch loops or the leftover check of etl.py
lines 135-136 can run. -/
theorem bundle_schema_drift_raises_typeerror (uuids : ℕ → String) :
    create_bundle uuids mappingFLT3 rowNoFLT3 =
      .error (.typeError "create_aml_condition() got an unexpected keyword argument 'age'") :=
  rfl

/-- A further well-formed row (SUBJID P004). -/
def rowP004 : Row :=
  [("SUBJID", .str "P004"), ("AGE", .int 72), ("SEX", .str "m"),
   ("AMLSTAT", .str "Unknown"), ("CR1", .int 0), ("EXAML", .int 0),
   ("OSSTAT", .int 1), ("EFSSTAT", .int 1), ("OSTM", .str "1,0"),
   ("EFSTM", .str "0,5"), ("CGCX", .int 1)]

/-- C8: no invocation of the bundle builder produces a Bundle whose entries
could be checked against the subject-reference round-trip — at this row, as
at every other, the builder raises `TypeError` at the AML-diagnosis call, so
the claimed invariant over produced Bundles is vacuous. -/
theorem bundle_subject_row_raises_typeerror (uuids : ℕ → String) (mapping : List MappingRow) :
    create_bundle uuids mapping rowP004 =
      .error (.typeError "create_aml_condition() got an unexpected keyword argument 'age'") :=
  rfl

end AmlFhir
